import Mathlib

/-
Verification of the call-access authorization flow (the useCallAccess hook).

The hook is embedded shallowly: each of its asynchronous operations is a pure
function from its inputs (call identifier, user identity, the HTTP outcome it
observes) to the ordered list of observable events it emits - reducer
dispatches, HTTP requests, toast notifications and console logs.  The session
state after a run is obtained by folding the dispatched actions over the
previous state.
-/

namespace CallAccess

/-- Creator record returned by the backend creator endpoint: id, name, email,
image (image nullable). -/
structure CreatorInfo where
  id : String
  name : String
  email : String
  image : Option String
  deriving DecidableEq, Repr

/-- Client-side session state for one call: the fields of the call-context
state that useCallAccess reads and writes.  A missing call identifier is
modelled by the empty string, which is falsy in JS. -/
structure CallState where
  callId : String
  joined : Bool
  hasAccess : Bool
  isCreator : Bool
  isRequestingAccess : Bool
  creatorInfo : Option CreatorInfo
  deriving DecidableEq, Repr

/-- The reducer actions dispatched by useCallAccess: SET_CREATOR_INFO,
SET_HAS_ACCESS, SET_CREATOR, SET_REQUESTING_ACCESS. -/
inductive Action where
  | setCreatorInfo (payload : Option CreatorInfo)
  | setHasAccess (payload : Bool)
  | setCreator (payload : Bool)
  | setRequestingAccess (payload : Bool)
  deriving DecidableEq, Repr

/-- Modelled from the spec: the reducer behind dispatch lives in the
call-context module, which is not among the sampled source files; only the
dispatched action types appear in the source.  Spec section 9 describes the
state container as an explicit state struct mutated only through a defined set
of transition messages, so each SET_X message writes the corresponding
field and leaves the rest unchanged. -/
def dispatch (s : CallState) : Action → CallState
  | .setCreatorInfo p => { s with creatorInfo := p }
  | .setHasAccess p => { s with hasAccess := p }
  | .setCreator p => { s with isCreator := p }
  | .setRequestingAccess p => { s with isRequestingAccess := p }

/-- An HTTP request issued by the hook: method and path relative to the
environment-configured backend base URL. -/
structure Request where
  method : String
  path : String
  deriving DecidableEq, Repr

/-- Toast notifications shown through the sonner library. -/
inductive Toast where
  | info (msg : String)
  | success (msg : String)
  | toastError (msg : String)
  deriving DecidableEq, Repr

/-- Observable events emitted by one run of a hook operation, in program
order: a reducer dispatch, an issued HTTP request, a toast, or a console
log line. -/
inductive Event where
  | dispatchEv (a : Action)
  | requestEv (r : Request)
  | toastEv (t : Toast)
  | logEv (msg : String)
  deriving DecidableEq, Repr

/-- Fold the dispatched actions of an event trace over a state; requests,
toasts and logs do not touch the session state. -/
def applyEvents (s : CallState) : List Event → CallState
  | [] => s
  | .dispatchEv a :: es => applyEvents (dispatch s a) es
  | .requestEv _ :: es => applyEvents s es
  | .toastEv _ :: es => applyEvents s es
  | .logEv _ :: es => applyEvents s es

/-- The HTTP requests of a trace, in order. -/
def requestsOf : List Event → List Request
  | [] => []
  | .requestEv r :: es => r :: requestsOf es
  | .dispatchEv _ :: es => requestsOf es
  | .toastEv _ :: es => requestsOf es
  | .logEv _ :: es => requestsOf es

/-- The toasts of a trace, in order. -/
def toastsOf : List Event → List Toast
  | [] => []
  | .toastEv t :: es => t :: toastsOf es
  | .dispatchEv _ :: es => toastsOf es
  | .requestEv _ :: es => toastsOf es
  | .logEv _ :: es => toastsOf es

/-- The console-log lines of a trace, in order. -/
def logsOf : List Event → List String
  | [] => []
  | .logEv m :: es => m :: logsOf es
  | .dispatchEv _ :: es => logsOf es
  | .requestEv _ :: es => logsOf es
  | .toastEv _ :: es => logsOf es

/-- An HTTP response as delivered to fetch: a status code and the parsed JSON
body.  A rejected fetch (network error) is modelled at each call site by
passing none instead of a response. -/
structure Response (β : Type) where
  status : Nat
  body : β
  deriving DecidableEq, Repr

/-- The ok flag of a fetch response: status in the range 200 to 299. -/
def Response.ok {β : Type} (r : Response β) : Bool :=
  decide (200 ≤ r.status ∧ r.status ≤ 299)

/-- Body of a creator-endpoint 200 response; the creator field is what the
hook dispatches as SET_CREATOR_INFO. -/
structure CreatorBody where
  creator : Option CreatorInfo
  deriving DecidableEq, Repr

/-- Body of a check-access 200 response. -/
structure CheckAccessBody where
  hasAccess : Bool
  isCreator : Bool
  deriving DecidableEq, Repr

/-- Body of a request-join failure response: the optional error field; none
models an absent field. -/
structure JoinErrorBody where
  joinError : Option String
  deriving DecidableEq, Repr

/-- The GET request to the creator endpoint for a call. -/
def creatorRequest (callId : String) : Request :=
  ⟨"GET", "/api/calls/" ++ callId ++ "/creator"⟩

/-- The GET request to the check-access endpoint for a call. -/
def checkAccessRequest (callId : String) : Request :=
  ⟨"GET", "/api/calls/" ++ callId ++ "/check-access"⟩

/-- The POST request to the request-join endpoint for a call. -/
def requestJoinRequest (callId : String) : Request :=
  ⟨"POST", "/api/calls/" ++ callId ++ "/request-join"⟩

/-- The guest test of the source, user has no id or the id is the string
guest: the JS condition is falsy-id or id equal to the sentinel, so none (no
user or no id) and the empty string are both guests. -/
def isGuest (userId : Option String) : Bool :=
  match userId with
  | none => true
  | some uid => uid = "" || uid = "guest"

/-- Event trace of one run of the one-shot creator fetch effect body: guard
on a missing call id, then the GET; on ok dispatch SET_CREATOR_INFO with the
body creator; on 404 dispatch the anonymous-room fallback; on any other
status do nothing; on fetch rejection log to the console. -/
def fetchCreatorInfoEvents (callId : String)
    (result : Option (Response CreatorBody)) : List Event :=
  if callId = "" then []
  else
    Event.requestEv (creatorRequest callId) ::
      (match result with
       | none => [Event.logEv "Error fetching creator info:"]
       | some r =>
         if r.ok then
           [Event.dispatchEv (.setCreatorInfo r.body.creator)]
         else if r.status = 404 then
           [Event.dispatchEv (.setCreatorInfo none),
            Event.dispatchEv (.setHasAccess true),
            Event.dispatchEv (.setCreator false)]
         else [])

/-- Event trace of one checkAccess call (one poll tick): the GET, then on ok
dispatch SET_HAS_ACCESS and SET_CREATOR from the body; on 404 dispatch the
anonymous-room fallback; on any other status do nothing; on fetch rejection
log to the console. -/
def checkAccessTickEvents (callId : String)
    (result : Option (Response CheckAccessBody)) : List Event :=
  Event.requestEv (checkAccessRequest callId) ::
    (match result with
     | none => [Event.logEv "Error checking call access:"]
     | some r =>
       if r.ok then
         [Event.dispatchEv (.setHasAccess r.body.hasAccess),
          Event.dispatchEv (.setCreator r.body.isCreator)]
       else if r.status = 404 then
         [Event.dispatchEv (.setHasAccess true),
          Event.dispatchEv (.setCreator false)]
       else [])

/-- Event trace of the access-polling effect body up to and including the
immediate checkAccess call: return early when joined or when the call id is
missing; grant access locally for guests with no request; otherwise run the
first checkAccess tick.  Subsequent interval ticks are individual
checkAccessTickEvents runs, scheduled by pollIssuesRequestAt. -/
def accessPollEffectEvents (joined : Bool) (callId : String)
    (userId : Option String) (result : Option (Response CheckAccessBody)) :
    List Event :=
  if joined || callId = "" then []
  else if isGuest userId then
    [Event.dispatchEv (.setHasAccess true), Event.dispatchEv (.setCreator false)]
  else
    checkAccessTickEvents callId result

/-- Modelled from the spec: the timer semantics of setInterval and
clearInterval and the React rule that the effect cleanup runs when the
dependencies change or the component unmounts are runtime behavior outside
the sampled source; the source contributes the guard, the immediate call, the
3000 ms period and the cleanup registration.  The predicate holds when the
effect run issues a check-access request t milliseconds after effect start,
given the guard inputs of that run and the teardown time (none while the run
is still live). -/
def pollIssuesRequestAt (joined : Bool) (callId : String)
    (userId : Option String) (cleanup : Option Nat) (t : Nat) : Bool :=
  !(joined || callId = "") && !(isGuest userId) && decide (t % 3000 = 0) &&
    (match cleanup with
     | none => true
     | some c => decide (t < c))

/-- Outcome of the request-join POST: a network rejection or a response. -/
inductive JoinResult where
  | reject
  | response (r : Response JoinErrorBody)
  deriving DecidableEq, Repr

/-- The JS or-else on the error field: absent and the empty string are both
falsy, so either yields the default text. -/
def jsOrDefault (e : Option String) (d : String) : String :=
  match e with
  | none => d
  | some msg => if msg = "" then d else msg

/-- Event trace of one handleRequestAccess invocation: guard on a missing
call id; informational toast only for guests; otherwise dispatch
SET_REQUESTING_ACCESS true, issue the POST, toast success on ok or the error
toast with the server message or default on failure, log and toast the
default on rejection, and finally dispatch SET_REQUESTING_ACCESS false. -/
def handleRequestAccessEvents (callId : String) (userId : Option String)
    (result : JoinResult) : List Event :=
  if callId = "" then []
  else if isGuest userId then
    [Event.toastEv (.info "Joining as guest. No approval required.")]
  else
    [Event.dispatchEv (.setRequestingAccess true),
     Event.requestEv (requestJoinRequest callId)] ++
    (match result with
     | .reject =>
         [Event.logEv "Error requesting access:",
          Event.toastEv (.toastError "Failed to send request")]
     | .response r =>
         if r.ok then
           [Event.toastEv (.success "Request sent! Please wait for the host to approve.")]
         else
           [Event.toastEv (.toastError (jsOrDefault r.body.joinError "Failed to send request"))]) ++
    [Event.dispatchEv (.setRequestingAccess false)]

/-- A sample creator record, used to instantiate witnesses. -/
def sampleCreator : CreatorInfo :=
  ⟨"u1", "Ada", "ada at example.com", none⟩

/-- A sample pre-join session state, used to instantiate witnesses. -/
def s0 : CallState :=
  ⟨"abc123", false, false, false, false, none⟩

/-- C1: for every call identifier for which the backend responds 404 to both
the creator fetch and the check-access fetch, the session state settles to
hasAccess = true, isCreator = false, creatorInfo = null, for every user
identity (guest or identified) and in either completion order of the two
effects. -/
theorem c1_double_404_settles (s : CallState) (userId : Option String)
    (b1 : CreatorBody) (b2 : CheckAccessBody) (h : s.callId ≠ "") :
    (let s1 := applyEvents s (fetchCreatorInfoEvents s.callId (some ⟨404, b1⟩))
     let s2 := applyEvents s1
       (accessPollEffectEvents s.joined s.callId userId (some ⟨404, b2⟩))
     s2.hasAccess = true ∧ s2.isCreator = false ∧ s2.creatorInfo = none) ∧
    (let t1 := applyEvents s
       (accessPollEffectEvents s.joined s.callId userId (some ⟨404, b2⟩))
     let t2 := applyEvents t1 (fetchCreatorInfoEvents s.callId (some ⟨404, b1⟩))
     t2.hasAccess = true ∧ t2.isCreator = false ∧ t2.creatorInfo = none) := by
  cases hj : s.joined <;> cases hg : isGuest userId <;>
    simp [fetchCreatorInfoEvents, accessPollEffectEvents, checkAccessTickEvents,
      applyEvents, dispatch, Response.ok, h, hj, hg]

/-- C1 witness: the double-404 settling at a concrete state and identified
user. -/
theorem c1_double_404_settles_witness :
    s0.callId ≠ "" ∧
    ((let s1 := applyEvents s0 (fetchCreatorInfoEvents s0.callId (some ⟨404, ⟨none⟩⟩))
      let s2 := applyEvents s1
        (accessPollEffectEvents s0.joined s0.callId (some "u1") (some ⟨404, ⟨false, false⟩⟩))
      s2.hasAccess = true ∧ s2.isCreator = false ∧ s2.creatorInfo = none) ∧
     (let t1 := applyEvents s0
        (accessPollEffectEvents s0.joined s0.callId (some "u1") (some ⟨404, ⟨false, false⟩⟩))
      let t2 := applyEvents t1 (fetchCreatorInfoEvents s0.callId (some ⟨404, ⟨none⟩⟩))
      t2.hasAccess = true ∧ t2.isCreator = false ∧ t2.creatorInfo = none)) :=
  ⟨by decide, c1_double_404_settles s0 (some "u1") ⟨none⟩ ⟨false, false⟩ (by decide)⟩

/-- C2: for every user whose id is absent or equals guest, the access-polling
path issues no check-access request at all, and, whenever the effect runs for
a pre-join session with a call id, it sets hasAccess = true and
isCreator = false locally with no network event in the trace. -/
theorem c2_guest_no_check_access (s : CallState) (userId : Option String)
    (result : Option (Response CheckAccessBody)) (hg : isGuest userId = true) :
    requestsOf (accessPollEffectEvents s.joined s.callId userId result) = [] ∧
    (s.joined = false → s.callId ≠ "" →
      applyEvents s (accessPollEffectEvents s.joined s.callId userId result) =
        { s with hasAccess := true, isCreator := false }) := by
  cases hj : s.joined <;>
    by_cases hc : s.callId = "" <;>
      simp [accessPollEffectEvents, hg, hj, hc, requestsOf, applyEvents, dispatch]

/-- C2 witness: the guest shortcut at a concrete state and the guest sentinel
id. -/
theorem c2_guest_no_check_access_witness :
    isGuest (some "guest") = true ∧
    requestsOf (accessPollEffectEvents s0.joined s0.callId (some "guest") none) = [] ∧
    applyEvents s0 (accessPollEffectEvents s0.joined s0.callId (some "guest") none) =
      { s0 with hasAccess := true, isCreator := false } :=
  ⟨by decide,
   (c2_guest_no_check_access s0 (some "guest") none (by decide)).1,
   (c2_guest_no_check_access s0 (some "guest") none (by decide)).2 rfl (by decide)⟩

/-- C3: for every invocation of handleRequestAccess by an identified user
with a non-empty call id, the trace starts by setting isRequestingAccess to
true, then issues the request-join POST, and ends by resetting
isRequestingAccess to false, in all three outcomes (success, server error,
network rejection); the final state has isRequestingAccess = false. -/
theorem c3_requesting_access_lifecycle (s : CallState) (callId : String)
    (userId : Option String) (result : JoinResult)
    (hid : isGuest userId = false) (hc : callId ≠ "") :
    (∃ mid, handleRequestAccessEvents callId userId result =
      [Event.dispatchEv (.setRequestingAccess true),
       Event.requestEv (requestJoinRequest callId)] ++ mid ++
      [Event.dispatchEv (.setRequestingAccess false)]) ∧
    (applyEvents s (handleRequestAccessEvents callId userId result)).isRequestingAccess
      = false := by
  cases result with
  | reject =>
    exact ⟨⟨[Event.logEv "Error requesting access:",
             Event.toastEv (.toastError "Failed to send request")],
           by simp [handleRequestAccessEvents, hid, hc]⟩,
           by simp [handleRequestAccessEvents, hid, hc, applyEvents, dispatch]⟩
  | response r =>
    by_cases hok : r.ok
    · exact ⟨⟨[Event.toastEv (.success "Request sent! Please wait for the host to approve.")],
             by simp [handleRequestAccessEvents, hid, hc, hok]⟩,
             by simp [handleRequestAccessEvents, hid, hc, hok, applyEvents, dispatch]⟩
    · exact ⟨⟨[Event.toastEv (.toastError (jsOrDefault r.body.joinError "Failed to send request"))],
             by simp [handleRequestAccessEvents, hid, hc, hok]⟩,
             by simp [handleRequestAccessEvents, hid, hc, hok, applyEvents, dispatch]⟩

/-- C3 witness: the lifecycle at a concrete state, identified user and a
network rejection. -/
theorem c3_requesting_access_lifecycle_witness :
    isGuest (some "u1") = false ∧ ("abc123" : String) ≠ "" ∧
    ((∃ mid, handleRequestAccessEvents "abc123" (some "u1") JoinResult.reject =
       [Event.dispatchEv (.setRequestingAccess true),
        Event.requestEv (requestJoinRequest "abc123")] ++ mid ++
       [Event.dispatchEv (.setRequestingAccess false)]) ∧
     (applyEvents s0
        (handleRequestAccessEvents "abc123" (some "u1") JoinResult.reject)).isRequestingAccess
       = false) :=
  ⟨by decide, by decide,
   c3_requesting_access_lifecycle s0 "abc123" (some "u1") .reject (by decide) (by decide)⟩

/-- C4: the polling schedule issues no check-access request when joined is
true or the call id is empty, none at or after the cleanup time, and while
active for an identified user it issues a request exactly at the immediate
start and every 3000 ms thereafter. -/
theorem c4_poll_schedule (joined : Bool) (callId : String) (userId : Option String)
    (cleanup : Option Nat) (t c : Nat) :
    (joined = true → pollIssuesRequestAt joined callId userId cleanup t = false) ∧
    (callId = "" → pollIssuesRequestAt joined callId userId cleanup t = false) ∧
    (cleanup = some c → c ≤ t →
      pollIssuesRequestAt joined callId userId cleanup t = false) ∧
    (joined = false → callId ≠ "" → isGuest userId = false → cleanup = none →
      (pollIssuesRequestAt joined callId userId cleanup t = true ↔ t % 3000 = 0)) := by
  refine ⟨?_, ?_, ?_, ?_⟩
  · intro hj; simp [pollIssuesRequestAt, hj]
  · intro hcid; simp [pollIssuesRequestAt, hcid]
  · intro hcl hle; subst hcl; simp [pollIssuesRequestAt, Nat.not_lt.mpr hle]
  · intro hj hcid hg hcl; subst hcl; simp [pollIssuesRequestAt, hj, hcid, hg]

/-- C4 witness: a live identified poll fires at 3000 ms, and a joined session
fires no request. -/
theorem c4_poll_schedule_witness :
    pollIssuesRequestAt false "abc123" (some "u1") none 3000 = true ∧
    pollIssuesRequestAt true "abc123" (some "u1") none 0 = false :=
  ⟨((c4_poll_schedule false "abc123" (some "u1") none 3000 0).2.2.2
      rfl (by decide) (by decide) rfl).mpr (by decide),
   (c4_poll_schedule true "abc123" (some "u1") none 0 0).1 rfl⟩

/-- C5 counterexample: the claim says any non-2xx non-404 response to the
creator fetch is logged, but at status 500 the full trace is just the request
itself, with no log event (console.error runs only in the catch branch, which
a delivered response never reaches). -/
theorem c5_counterexample :
    fetchCreatorInfoEvents "abc123" (some ⟨500, ⟨none⟩⟩) =
      [Event.requestEv (creatorRequest "abc123")] ∧
    logsOf (fetchCreatorInfoEvents "abc123" (some ⟨500, ⟨none⟩⟩)) = [] := by
  decide

/-- C5 (amended): the one-shot creator fetch sets creatorInfo from the body
on ok, applies the anonymous fallback on 404, leaves the state unchanged with
no log on any other status, logs and leaves the state unchanged on network
rejection, and issues exactly one request (no retry). -/
theorem c5_creator_fetch_behavior (s : CallState) (r : Response CreatorBody)
    (hc : s.callId ≠ "") :
    (r.ok = true →
      applyEvents s (fetchCreatorInfoEvents s.callId (some r)) =
        { s with creatorInfo := r.body.creator }) ∧
    (r.status = 404 →
      applyEvents s (fetchCreatorInfoEvents s.callId (some r)) =
        { s with creatorInfo := none, hasAccess := true, isCreator := false }) ∧
    (r.ok = false → r.status ≠ 404 →
      fetchCreatorInfoEvents s.callId (some r) =
        [Event.requestEv (creatorRequest s.callId)]) ∧
    (applyEvents s (fetchCreatorInfoEvents s.callId none) = s ∧
      logsOf (fetchCreatorInfoEvents s.callId none) = ["Error fetching creator info:"]) ∧
    requestsOf (fetchCreatorInfoEvents s.callId (some r)) = [creatorRequest s.callId] := by
  refine ⟨?_, ?_, ?_, ⟨?_, ?_⟩, ?_⟩
  · intro hok; simp [fetchCreatorInfoEvents, hc, hok, applyEvents, dispatch]
  · intro h404
    have hok : r.ok = false := by simp [Response.ok, h404]
    simp [fetchCreatorInfoEvents, hc, hok, h404, applyEvents, dispatch]
  · intro hok h404; simp [fetchCreatorInfoEvents, hc, hok, h404]
  · simp [fetchCreatorInfoEvents, hc, applyEvents]
  · simp [fetchCreatorInfoEvents, hc, logsOf]
  · by_cases hok : r.ok <;> by_cases h404 : r.status = 404 <;>
      simp [fetchCreatorInfoEvents, hc, hok, h404, requestsOf]

/-- C5 witness: the 404 fallback of the creator fetch at a concrete state,
with its single request. -/
theorem c5_creator_fetch_behavior_witness :
    s0.callId ≠ "" ∧
    applyEvents s0 (fetchCreatorInfoEvents s0.callId (some ⟨404, ⟨none⟩⟩)) =
      { s0 with creatorInfo := none, hasAccess := true, isCreator := false } ∧
    requestsOf (fetchCreatorInfoEvents s0.callId (some ⟨404, ⟨none⟩⟩)) =
      [creatorRequest s0.callId] :=
  ⟨by decide,
   (c5_creator_fetch_behavior s0 ⟨404, ⟨none⟩⟩ (by decide)).2.1 rfl,
   (c5_creator_fetch_behavior s0 ⟨404, ⟨none⟩⟩ (by decide)).2.2.2.2⟩

/-- C6 counterexample: the claim says any non-2xx non-404 poll response is
logged, but at status 500 the tick trace is just the request itself, with no
log event. -/
theorem c6_counterexample :
    checkAccessTickEvents "abc123" (some ⟨500, ⟨false, false⟩⟩) =
      [Event.requestEv (checkAccessRequest "abc123")] ∧
    logsOf (checkAccessTickEvents "abc123" (some ⟨500, ⟨false, false⟩⟩)) = [] := by
  decide

/-- C6 (amended): each check-access poll tick sets hasAccess and isCreator
from the body on ok, applies the anonymous fallback on 404, retains the
previous state with no log on any other status, logs and retains the state on
network rejection, and the schedule still fires 3000 ms after any firing
time, so polling continues on the next tick. -/
theorem c6_check_access_tick_behavior (s : CallState) (r : Response CheckAccessBody)
    (userId : Option String) :
    (r.ok = true → applyEvents s (checkAccessTickEvents s.callId (some r)) =
      { s with hasAccess := r.body.hasAccess, isCreator := r.body.isCreator }) ∧
    (r.status = 404 → applyEvents s (checkAccessTickEvents s.callId (some r)) =
      { s with hasAccess := true, isCreator := false }) ∧
    (r.ok = false → r.status ≠ 404 →
      applyEvents s (checkAccessTickEvents s.callId (some r)) = s ∧
      logsOf (checkAccessTickEvents s.callId (some r)) = []) ∧
    (applyEvents s (checkAccessTickEvents s.callId none) = s ∧
      logsOf (checkAccessTickEvents s.callId none) = ["Error checking call access:"]) ∧
    (∀ t, pollIssuesRequestAt false s.callId userId none t = true →
      pollIssuesRequestAt false s.callId userId none (t + 3000) = true) := by
  refine ⟨?_, ?_, ?_, ⟨?_, ?_⟩, ?_⟩
  · intro hok; simp [checkAccessTickEvents, hok, applyEvents, dispatch]
  · intro h404
    have hok : r.ok = false := by simp [Response.ok, h404]
    simp [checkAccessTickEvents, hok, h404, applyEvents, dispatch]
  · intro hok h404; simp [checkAccessTickEvents, hok, h404, applyEvents, logsOf]
  · simp [checkAccessTickEvents, applyEvents]
  · simp [checkAccessTickEvents, logsOf]
  · intro t ht
    simp only [pollIssuesRequestAt, Bool.and_eq_true, decide_eq_true_eq] at ht ⊢
    exact ⟨⟨⟨ht.1.1.1, ht.1.1.2⟩, by omega⟩, ht.2⟩

/-- C6 witness: a 200 tick updates the two access fields at a concrete state,
and a 500 tick leaves no log. -/
theorem c6_check_access_tick_behavior_witness :
    applyEvents s0 (checkAccessTickEvents s0.callId (some ⟨200, ⟨true, false⟩⟩)) =
      { s0 with hasAccess := true, isCreator := false } ∧
    logsOf (checkAccessTickEvents s0.callId (some ⟨500, ⟨true, false⟩⟩)) = [] :=
  ⟨(c6_check_access_tick_behavior s0 ⟨200, ⟨true, false⟩⟩ (some "u1")).1 rfl,
   ((c6_check_access_tick_behavior s0 ⟨500, ⟨true, false⟩⟩ (some "u1")).2.2.1
      rfl (by decide)).2⟩

/-- C7: when the request-join POST returns a non-2xx response, the only toast
of the trace is the error toast whose text is the server-provided message
under JS truthiness (the default text Failed to send request when the field
is absent or empty), and the final state has isRequestingAccess = false. -/
theorem c7_error_notification (s : CallState) (callId : String)
    (userId : Option String) (r : Response JoinErrorBody)
    (hid : isGuest userId = false) (hc : callId ≠ "") (hnok : r.ok = false) :
    toastsOf (handleRequestAccessEvents callId userId (.response r)) =
      [.toastError (jsOrDefault r.body.joinError "Failed to send request")] ∧
    (applyEvents s (handleRequestAccessEvents callId userId (.response r))).isRequestingAccess
      = false := by
  simp [handleRequestAccessEvents, hid, hc, hnok, toastsOf, applyEvents, dispatch]

/-- C7 witness: a 409 response with error Already requested produces exactly
that toast text and isRequestingAccess returns to false. -/
theorem c7_error_notification_witness :
    isGuest (some "u1") = false ∧ ("abc123" : String) ≠ "" ∧
    Response.ok (⟨409, ⟨some "Already requested"⟩⟩ : Response JoinErrorBody) = false ∧
    toastsOf (handleRequestAccessEvents "abc123" (some "u1")
        (.response ⟨409, ⟨some "Already requested"⟩⟩)) =
      [.toastError "Already requested"] ∧
    (applyEvents s0 (handleRequestAccessEvents "abc123" (some "u1")
        (.response ⟨409, ⟨some "Already requested"⟩⟩))).isRequestingAccess = false :=
  ⟨by decide, by decide, by decide,
   (c7_error_notification s0 "abc123" (some "u1") ⟨409, ⟨some "Already requested"⟩⟩
      (by decide) (by decide) (by decide)).1,
   (c7_error_notification s0 "abc123" (some "u1") ⟨409, ⟨some "Already requested"⟩⟩
      (by decide) (by decide) (by decide)).2⟩

/-- C8: handleRequestAccess invoked by a guest user with a non-empty call id
emits only the informational toast: no request, no dispatch, and the session
state is left exactly as it was. -/
theorem c8_guest_request_noop (s : CallState) (userId : Option String)
    (result : JoinResult) (hg : isGuest userId = true) (hc : s.callId ≠ "") :
    handleRequestAccessEvents s.callId userId result =
      [Event.toastEv (.info "Joining as guest. No approval required.")] ∧
    applyEvents s (handleRequestAccessEvents s.callId userId result) = s := by
  constructor <;> simp [handleRequestAccessEvents, hg, hc, applyEvents]

/-- C8 witness: the guest no-op at a concrete state and the guest sentinel
id. -/
theorem c8_guest_request_noop_witness :
    isGuest (some "guest") = true ∧ s0.callId ≠ "" ∧
    handleRequestAccessEvents s0.callId (some "guest") JoinResult.reject =
      [Event.toastEv (.info "Joining as guest. No approval required.")] ∧
    applyEvents s0 (handleRequestAccessEvents s0.callId (some "guest") JoinResult.reject)
      = s0 :=
  ⟨by decide, by decide,
   (c8_guest_request_noop s0 (some "guest") .reject (by decide) (by decide)).1,
   (c8_guest_request_noop s0 (some "guest") .reject (by decide) (by decide)).2⟩

/-- C9: every check-access poll tick, whatever the response (ok, 404, other
status, or rejection), changes at most hasAccess and isCreator; creatorInfo,
isRequestingAccess, callId and joined are untouched. -/
theorem c9_poll_tick_frame (s : CallState) (callId : String)
    (result : Option (Response CheckAccessBody)) :
    (applyEvents s (checkAccessTickEvents callId result)).creatorInfo = s.creatorInfo ∧
    (applyEvents s (checkAccessTickEvents callId result)).isRequestingAccess
      = s.isRequestingAccess ∧
    (applyEvents s (checkAccessTickEvents callId result)).callId = s.callId ∧
    (applyEvents s (checkAccessTickEvents callId result)).joined = s.joined := by
  cases result with
  | none => simp [checkAccessTickEvents, applyEvents]
  | some r =>
    by_cases hok : r.ok <;> by_cases h404 : r.status = 404 <;>
      simp [checkAccessTickEvents, applyEvents, dispatch, hok, h404]

/-- C10: for guest users the one-shot creator fetch is still issued over the
network whenever the call id is non-empty, while the same guest produces no
check-access request from the polling path. -/
theorem c10_creator_fetch_no_guest_guard (s : CallState) (userId : Option String)
    (resC : Option (Response CreatorBody)) (resA : Option (Response CheckAccessBody))
    (hg : isGuest userId = true) (hc : s.callId ≠ "") :
    requestsOf (fetchCreatorInfoEvents s.callId resC) = [creatorRequest s.callId] ∧
    requestsOf (accessPollEffectEvents s.joined s.callId userId resA) = [] := by
  constructor
  · cases resC with
    | none => simp [fetchCreatorInfoEvents, hc, requestsOf]
    | some r =>
      by_cases hok : r.ok <;> by_cases h404 : r.status = 404 <;>
        simp [fetchCreatorInfoEvents, hc, hok, h404, requestsOf]
  · cases hj : s.joined <;>
      simp [accessPollEffectEvents, hg, hj, hc, requestsOf]

/-- C10 witness: a guest at a concrete state still triggers the creator
request and no check-access request. -/
theorem c10_creator_fetch_no_guest_guard_witness :
    isGuest (some "guest") = true ∧ s0.callId ≠ "" ∧
    requestsOf (fetchCreatorInfoEvents s0.callId
        (some ⟨200, ⟨some sampleCreator⟩⟩)) = [creatorRequest s0.callId] ∧
    requestsOf (accessPollEffectEvents s0.joined s0.callId (some "guest") none) = [] :=
  ⟨by decide, by decide,
   (c10_creator_fetch_no_guest_guard s0 (some "guest")
      (some ⟨200, ⟨some sampleCreator⟩⟩) none (by decide) (by decide)).1,
   (c10_creator_fetch_no_guest_guard s0 (some "guest")
      (some ⟨200, ⟨some sampleCreator⟩⟩) none (by decide) (by decide)).2⟩

end CallAccess
